import Mathlib

/-!
# HealthmateUI — verification of the streaming chat client core

Shallow embedding of the browser-resident chat client of the HealthmateUI
repository (`static/js/chat.js`, `static/js/modules/*.js` and the streaming
manager module).  DOM state is modelled explicitly: the `#chat-messages`
container is a list of nodes, element references held by the managers are
node identifiers, and host primitives (`JSON.parse`, `Math.random`,
`Date.now`, the network) are parameters of the functions that consume them.
-/

namespace Healthmate

/-! ## Stream decoder (the read loop of `ChatInterface.handleFormSubmit`)

The JS loop keeps a growable text buffer: each incoming chunk is appended,
the buffer is split on `'\n'`, all segments except the last are complete
lines and the last segment becomes the new buffer.  `splitLines` performs
exactly that split: it returns the complete lines (in order) and the
trailing segment. -/

def splitLines : List Char → List (List Char) × List Char
  | [] => ([], [])
  | c :: cs =>
    let r := splitLines cs
    if c = '\n' then ([] :: r.1, r.2)
    else
      match r with
      | ([], rest) => ([], c :: rest)
      | (l :: ls, rest) => ((c :: l) :: ls, rest)

theorem splitLines_of_no_newline (s : List Char) (h : '\n' ∉ s) :
    splitLines s = ([], s) := by
  induction s with
  | nil => rfl
  | cons c cs ih =>
    have hc : c ≠ '\n' := fun hc => h (hc ▸ List.mem_cons_self c cs)
    have hcs : '\n' ∉ cs := fun hm => h (List.mem_cons_of_mem c hm)
    simp [splitLines, ih hcs, hc]

theorem no_newline_splitLines_snd (s : List Char) : '\n' ∉ (splitLines s).2 := by
  induction s with
  | nil => simp [splitLines]
  | cons c cs ih =>
    by_cases hc : c = '\n'
    · simpa [splitLines, hc] using ih
    · rcases hr : splitLines cs with ⟨ls, rest⟩
      cases ls with
      | nil =>
        simp only [splitLines, hr, if_neg hc]
        intro hm
        rcases List.mem_cons.mp hm with h1 | h2
        · exact hc h1.symm
        · exact ih (by rw [hr]; exact h2)
      | cons l ls' =>
        simp only [splitLines, hr, if_neg hc]
        intro hm
        exact ih (by rw [hr]; exact hm)

theorem splitLines_append (xs ys : List Char) :
    splitLines (xs ++ ys) =
      ((splitLines xs).1 ++ (splitLines ((splitLines xs).2 ++ ys)).1,
       (splitLines ((splitLines xs).2 ++ ys)).2) := by
  induction xs with
  | nil => simp [splitLines]
  | cons c cs ih =>
    by_cases hc : c = '\n'
    · simp [splitLines, hc, ih]
    · rcases hr : splitLines cs with ⟨ls, rest⟩
      rw [hr] at ih
      cases ls with
      | nil =>
        rcases hb : splitLines (rest ++ ys) with ⟨bs, brest⟩
        rw [hb] at ih
        simp only at ih
        cases bs with
        | nil =>
          simp only [List.cons_append, splitLines, hr, if_neg hc, hb, List.append_eq]
          rw [ih]
          simp
        | cons b bs' =>
          simp only [List.cons_append, splitLines, hr, if_neg hc, hb, List.append_eq]
          rw [ih]
          simp
      | cons l ls' =>
        simp only at ih
        simp only [List.cons_append, splitLines, hr, if_neg hc, List.append_eq]
        rw [ih]
        simp

/-- One reader iteration: append `frag` to `buf`, split, keep the last
segment as the new buffer, emit the complete lines.  `feedFrags` runs the
whole loop over a list of received fragments. -/
def feedFrags : List Char → List (List Char) → List (List Char) × List Char
  | buf, [] => ([], buf)
  | buf, f :: fs =>
    let r := splitLines (buf ++ f)
    let r2 := feedFrags r.2 fs
    (r.1 ++ r2.1, r2.2)

theorem feedFrags_eq_splitLines (fs : List (List Char)) :
    ∀ buf : List Char, '\n' ∉ buf →
      feedFrags buf fs = splitLines (buf ++ fs.flatten) := by
  induction fs with
  | nil =>
    intro buf hbuf
    simp [feedFrags, splitLines_of_no_newline buf hbuf]
  | cons f fs ih =>
    intro buf hbuf
    have h2 := ih (splitLines (buf ++ f)).2 (no_newline_splitLines_snd (buf ++ f))
    calc feedFrags buf (f :: fs)
        = ((splitLines (buf ++ f)).1 ++ (feedFrags (splitLines (buf ++ f)).2 fs).1,
           (feedFrags (splitLines (buf ++ f)).2 fs).2) := rfl
      _ = ((splitLines (buf ++ f)).1 ++ (splitLines ((splitLines (buf ++ f)).2 ++ fs.flatten)).1,
           (splitLines ((splitLines (buf ++ f)).2 ++ fs.flatten)).2) := by rw [h2]
      _ = splitLines ((buf ++ f) ++ fs.flatten) := (splitLines_append (buf ++ f) fs.flatten).symm
      _ = splitLines (buf ++ (f :: fs).flatten) := by simp

/-! ## Protocol events

Decoded payloads carry an `event_type` discriminator; `chunk` events carry
an optional `text` field (absent fields are JS `undefined`, modelled as
`none`) and `error` events an `error` message. -/

inductive EventData
  | connected
  | userMessage
  | aiThinking
  | chunk (text : Option String)
  | aiMessageComplete
  | complete
  | errorEvent (msg : String)
  | disconnected
  | unknownEvent (eventType : String)
deriving DecidableEq, Repr

/-- The `data: ` marker checked by `line.startsWith('data: ')`. -/
def dataMarker : List Char := "data: ".data

/-- A complete line is parsed only when it carries the `data: ` marker;
the remainder is handed to `JSON.parse` (a host primitive, taken as the
parameter `jsonParse`; a parse failure is caught and the line is skipped,
hence `Option`). -/
def parseLine (jsonParse : String → Option EventData) (line : List Char) :
    Option EventData :=
  if line.take 6 = dataMarker then jsonParse (String.mk (line.drop 6)) else none

/-- The ordered sequence of protocol events produced by feeding the given
fragments, one at a time, through the decode loop. -/
def decodeEvents (jsonParse : String → Option EventData)
    (frags : List (List Char)) : List EventData :=
  (feedFrags [] frags).1.filterMap (parseLine jsonParse)

/-- C3: splitting the input into an arbitrary number of fragments and feeding
them to the decode loop one fragment at a time yields exactly the same
ordered sequence of parsed protocol events as feeding the whole input at
once. -/
theorem c3_decoder_fragmentation_independent
    (jsonParse : String → Option EventData) (frags : List (List Char)) :
    decodeEvents jsonParse frags = decodeEvents jsonParse [frags.flatten] := by
  unfold decodeEvents
  rw [feedFrags_eq_splitLines frags [] (by simp),
      feedFrags_eq_splitLines [frags.flatten] [] (by simp)]
  simp

/-! ## Transcript, scroll state and the streaming manager

`#chat-messages` is modelled as a list of nodes.  A committed message
element (built by `createMessageElement`) is `Node.msg`; the in-progress
streaming response element created by `StreamingManager.startStreaming`
(carrying the `thinking-indicator`, `streaming-text` and `typing-indicator`
children) is `Node.pendingEntry`, tagged with a unique identifier so that
the element references held by the manager can be modelled as ids.
`document.getElementById` on the three child ids resolves to the first
pending element in the container, since every pending element carries all
three ids.  Scroll geometry (`scrollTop`/`scrollHeight`/`clientHeight`) is
explicit; every call of `scrollToBottom` is also logged in `effects`,
together with the network requests issued. -/

inductive Role
  | user
  | assistant
  | errorRole
deriving DecidableEq, Repr

structure PendingElem where
  /-- `thinking-indicator` carries the `hidden` class. -/
  thinkingHidden : Bool
  /-- `streaming-text` carries the `hidden` class. -/
  textHidden : Bool
  /-- `typing-indicator` carries the `hidden` class. -/
  typingHidden : Bool
  /-- `typing-indicator` has `style.display = 'none'`. -/
  typingDisplayNone : Bool
  /-- `streaming-text.textContent`, the accumulated chunk text. -/
  text : String
deriving DecidableEq, Repr

inductive Node
  | msg (role : Role) (content : String)
  | pendingEntry (id : Nat) (el : PendingElem)
deriving DecidableEq, Repr

def Node.isPendingEntry : Node → Bool
  | .msg _ _ => false
  | .pendingEntry _ _ => true

/-- No pending (streaming) element among the given nodes. -/
def noPending (dom : List Node) : Prop :=
  ∀ n ∈ dom, n.isPendingEntry = false

structure ScrollState where
  scrollTop : Int
  scrollHeight : Int
  clientHeight : Int
deriving DecidableEq, Repr

inductive Effect
  | scrolledToBottom
  | requestSend (message : String) (sessionId : Option String)
  | requestClearSession
  | requestHistory (sessionId : String)
deriving DecidableEq, Repr

/-- The combined state of the chat page: the `#chat-messages` container, the
`StreamingManager` fields, and the input-disabled flag managed by
`UIManager.setInputDisabled`. -/
structure ChatState where
  dom : List Node
  nextId : Nat
  scroll : ScrollState
  effects : List Effect
  isStreaming : Bool
  streamingResponse : Option Nat
  streamingText : Option Nat
  typingIndicator : Option Nat
  thinkingIndicator : Option Nat
  inputDisabled : Bool
deriving DecidableEq, Repr

/-- `scrollToBottom`: `chatMessages.scrollTop = chatMessages.scrollHeight`. -/
def scrollToBottom (st : ChatState) : ChatState :=
  { st with
      scroll := { st.scroll with scrollTop := st.scroll.scrollHeight },
      effects := st.effects ++ [Effect.scrolledToBottom] }

/-- `smartScrollToBottom` with its fixed 70-pixel threshold: scroll only when
`scrollHeight - scrollTop - clientHeight <= 70`. -/
def smartScrollToBottom (st : ChatState) : ChatState :=
  if st.scroll.scrollHeight - st.scroll.scrollTop - st.scroll.clientHeight ≤ 70 then
    scrollToBottom st
  else
    st

/-- `MessageManager.addUserMessage`: append a committed user message, then
always scroll to the bottom. -/
def addUserMessage (st : ChatState) (content : String) : ChatState :=
  scrollToBottom { st with dom := st.dom ++ [Node.msg Role.user content] }

/-- `MessageManager.addAssistantMessage`. -/
def addAssistantMessage (st : ChatState) (content : String) : ChatState :=
  scrollToBottom { st with dom := st.dom ++ [Node.msg Role.assistant content] }

/-- `MessageManager.addErrorMessage`: append a committed error message, then
always scroll to the bottom. -/
def addErrorMessage (st : ChatState) (content : String) : ChatState :=
  scrollToBottom { st with dom := st.dom ++ [Node.msg Role.errorRole content] }

/-- `document.getElementById` for the ids inside the streaming response
element: the first pending element in the container owns them. -/
def firstPendingId : List Node → Option Nat
  | [] => none
  | Node.pendingEntry i _ :: _ => some i
  | Node.msg _ _ :: rest => firstPendingId rest

/-- The streaming response element as `startStreaming` creates it: thinking
indicator visible, streaming text and typing indicator hidden, no text. -/
def freshPending : PendingElem :=
  { thinkingHidden := false, textHidden := true, typingHidden := true,
    typingDisplayNone := false, text := "" }

/-- Rewrite the pending element with identifier `i` through `f`. -/
def updatePending (dom : List Node) (i : Nat) (f : PendingElem → PendingElem) :
    List Node :=
  dom.map fun n =>
    match n with
    | Node.pendingEntry j el => if j = i then Node.pendingEntry j (f el) else n
    | _ => n

/-- `replaceChild`: swap the pending element with identifier `i` for `m`. -/
def replacePendingWith (dom : List Node) (i : Nat) (m : Node) : List Node :=
  dom.map fun n =>
    match n with
    | Node.pendingEntry j _ => if j = i then m else n
    | _ => n

/-- `textContent` of the pending element with identifier `i` (the live
reference is modelled as a lookup; in every reachable state the referenced
element is present). -/
def pendingTextOf (dom : List Node) (i : Nat) : String :=
  (dom.findSome? fun n =>
    match n with
    | Node.pendingEntry j el => if j = i then some el.text else none
    | _ => none).getD ("")

/-- `StreamingManager.startStreaming`: set the streaming flag, append a fresh
streaming response element, resolve the three child ids via
`getElementById`, scroll to the bottom. -/
def startStreaming (st : ChatState) : ChatState :=
  let dom' := st.dom ++ [Node.pendingEntry st.nextId freshPending]
  let fp := firstPendingId dom'
  scrollToBottom
    { st with
        isStreaming := true
        dom := dom'
        nextId := st.nextId + 1
        streamingResponse := some st.nextId
        streamingText := fp
        typingIndicator := fp
        thinkingIndicator := fp }

/-- Whether the `thinkingIndicator` reference is set and its element does not
carry the `hidden` class (`this.thinkingIndicator &&
!this.thinkingIndicator.classList.contains('hidden')`). -/
def thinkingVisible (st : ChatState) : Bool :=
  match st.thinkingIndicator with
  | none => false
  | some i =>
    (st.dom.findSome? fun n =>
      match n with
      | Node.pendingEntry j el => if j = i then some (!el.thinkingHidden) else none
      | _ => none).getD false

/-- The first-chunk visibility flip: hide the thinking indicator, unhide the
streaming text and the typing indicator. -/
def flipIndicators (st : ChatState) : ChatState :=
  if thinkingVisible st then
    let dom := match st.thinkingIndicator with
      | some i => updatePending st.dom i fun el => { el with thinkingHidden := true }
      | none => st.dom
    let dom := match st.streamingText with
      | some i => updatePending dom i fun el => { el with textHidden := false }
      | none => dom
    let dom := match st.typingIndicator with
      | some i => updatePending dom i fun el => { el with typingHidden := false }
      | none => dom
    { st with dom := dom }
  else
    st

/-- `this.streamingText.textContent += text`. -/
def appendStreamingText (st : ChatState) (text : String) : ChatState :=
  match st.streamingText with
  | some i =>
    { st with dom := updatePending st.dom i fun el => { el with text := el.text ++ text } }
  | none => st

/-- The `chunk` branch of `handleStreamingEvent` for truthy `text`: ensure
streaming is started, flip the indicators on the first chunk, append the
text, smart-scroll. -/
def handleChunk (st : ChatState) (text : String) : ChatState :=
  let st := if st.isStreaming then st else startStreaming st
  smartScrollToBottom (appendStreamingText (flipIndicators st) text)

/-- `StreamingManager.completeStreaming`: clear the streaming flag, hide the
typing indicator via `style.display`, read the accumulated text, and — only
when that text is non-empty and the streaming response reference is set —
replace the streaming response element in place by a committed assistant
message; finally null all references and scroll to the bottom. -/
def completeStreaming (st : ChatState) : ChatState :=
  let st := { st with isStreaming := false }
  let st := match st.typingIndicator with
    | some i =>
      { st with dom := updatePending st.dom i fun el => { el with typingDisplayNone := true } }
    | none => st
  let finalText := match st.streamingText with
    | some i => pendingTextOf st.dom i
    | none => ""
  let st :=
    if finalText ≠ "" then
      match st.streamingResponse with
      | some j =>
        { st with dom := replacePendingWith st.dom j (Node.msg Role.assistant finalText) }
      | none => st
    else st
  scrollToBottom
    { st with
        streamingResponse := none
        streamingText := none
        typingIndicator := none
        thinkingIndicator := none }

/-- `StreamingManager.handleStreamingEvent`.  The `onError` callback is wired
by `ChatInterface` to `MessageManager.addErrorMessage`, with the message
text `` `エラー: ${eventData.error}` ``.  `connected`, `user_message`,
`ai_thinking`, `ai_message_complete`, `disconnected` and unknown event
types only log and change nothing. -/
def handleStreamingEvent (st : ChatState) (ev : EventData) : ChatState :=
  match ev with
  | EventData.chunk text =>
    match text with
    | some t => if t = "" then st else handleChunk st t
    | none => st
  | EventData.complete => completeStreaming st
  | EventData.errorEvent m =>
    completeStreaming (addErrorMessage st ("エラー: " ++ m))
  | _ => st

/-- `UIManager.setInputDisabled`. -/
def setInputDisabled (st : ChatState) (disabled : Bool) : ChatState :=
  { st with inputDisabled := disabled }

/-- JS `String.prototype.trim` on the message input
(`UIManager.getCurrentMessage`), modelled on the underlying character list
(Lean's own `String.trim` is equivalent on these whitespace characters but
does not evaluate inside the kernel). -/
def jsWhitespace (c : Char) : Bool :=
  c = ' ' || c = '\t' || c = '\n' || c = '\r' || c = '\x0b' || c = '\x0c'

def jsTrim (s : String) : String :=
  String.mk (((s.data.dropWhile jsWhitespace).reverse.dropWhile jsWhitespace).reverse)

/-- `ChatInterface.handleFormSubmit`, with the stream already decoded into
protocol events (the decode loop is `decodeEvents`; decoding is interleaved
with dispatch in the JS but the decoder state is independent of the chat
state, so the composition is the same function).  Parameters describe the
host interaction: `httpOk` is `response.ok`; `events` the decoded protocol
events delivered before the stream ended; `readOk` is false when a
`reader.read()` rejects (transport failure), in which case `failMsg` is the
thrown error's message; `httpErrMsg` the `HTTP <status>: <statusText>` text
used when `response.ok` is false. -/
def handleFormSubmitEvents (input : String) (sessionId : Option String)
    (httpOk : Bool) (events : List EventData) (readOk : Bool)
    (failMsg httpErrMsg : String) (st : ChatState) : ChatState :=
  let messageText := jsTrim input
  if messageText = "" then st
  else
    let st := setInputDisabled st true
    let st := addUserMessage st messageText
    let st := { st with effects := st.effects ++ [Effect.requestSend messageText sessionId] }
    let st :=
      if httpOk then
        let st := startStreaming st
        let st := events.foldl handleStreamingEvent st
        if readOk then st
        else addErrorMessage st ("メッセージ送信エラー: " ++ failMsg)
      else addErrorMessage st ("メッセージ送信エラー: " ++ httpErrMsg)
    let st := setInputDisabled st false
    if st.isStreaming then completeStreaming st else st

/-- `ChatInterface.handleFormSubmit` from the raw stream fragments. -/
def handleFormSubmit (jsonParse : String → Option EventData) (input : String)
    (sessionId : Option String) (httpOk : Bool) (frags : List (List Char))
    (readOk : Bool) (failMsg httpErrMsg : String) (st : ChatState) : ChatState :=
  handleFormSubmitEvents input sessionId httpOk (decodeEvents jsonParse frags)
    readOk failMsg httpErrMsg st

/-- The chat page's state after construction of the managers. -/
def initialChatState (sc : ScrollState) : ChatState :=
  { dom := [], nextId := 0, scroll := sc, effects := [], isStreaming := false,
    streamingResponse := none, streamingText := none, typingIndicator := none,
    thinkingIndicator := none, inputDisabled := false }

/-! ## Session identity (`SessionManager`) and history loading
(`HistoryManager`)

`localStorage` holds at most the one key `healthmate_chat_session_id`,
modelled as `Option String` (`getItem` returns `null` when absent).  The
sources of nondeterminism used by id generation — `Date.now()` and the
`Math.random().toString(36).substring(..)` segments — are parameters.  Each
round of the padding `while` loop appends one character drawn from
`Math.random().toString(36).substring(2, 3)`, modelled by `pad`; the loop
adds one character per iteration until the length reaches 33, so 33 rounds
of fuel always suffice. -/

def padTo33 : Nat → (Nat → Char) → String → String
  | 0, _, s => s
  | fuel + 1, pad, s =>
    if s.length < 33 then padTo33 fuel pad (s.push (pad fuel)) else s

/-- `` `healthmate-chat-${timestamp}-${randomPart1}-${randomPart2}` ``
padded until it is at least 33 characters long. -/
def generateSessionId (ts : Nat) (r1 r2 : String) (pad : Nat → Char) : String :=
  padTo33 33 pad ("healthmate-chat-" ++ toString ts ++ "-" ++ r1 ++ "-" ++ r2)

/-- `SessionManager.getOrCreateSessionId`: return the persisted id when it is
truthy (present and non-empty — there is no further validation), otherwise
generate, persist and return a new id.  The second component is the
localStorage content afterwards. -/
def getOrCreateSessionId (store : Option String) (ts : Nat) (r1 r2 : String)
    (pad : Nat → Char) : String × Option String :=
  match store with
  | some s =>
    if s = "" then
      let id := generateSessionId ts r1 r2 pad
      (id, some id)
    else (s, some s)
  | none =>
    let id := generateSessionId ts r1 r2 pad
    (id, some id)

structure SessionState where
  /-- `localStorage` content under `healthmate_chat_session_id`. -/
  store : Option String
  /-- `this.sessionId`. -/
  sessionId : Option String
  /-- `this.isNewSessionJustCreated`. -/
  isNewSessionJustCreated : Bool
  /-- Network requests issued. -/
  requests : List Effect
  /-- `console.warn` lines emitted. -/
  warns : List String
deriving DecidableEq, Repr

/-- `SessionManager.resetChatSession`: remove the persisted id first, then
best-effort notify `/api/chat/clear-session`; a notification failure is
caught and logged (`notifyFails` tells whether the `fetch` rejected). -/
def resetChatSession (st : SessionState) (notifyFails : Bool) : SessionState :=
  let st := { st with store := none }
  let st := { st with requests := st.requests ++ [Effect.requestClearSession] }
  if notifyFails then
    { st with warns := st.warns ++ ["Failed to clear session on server:"] }
  else st

/-- `SessionManager.startNewSession`: reset, regenerate via
`getOrCreateSessionId`, mark the session as freshly created. -/
def startNewSession (st : SessionState) (notifyFails : Bool) (ts : Nat)
    (r1 r2 : String) (pad : Nat → Char) : SessionState :=
  let st := resetChatSession st notifyFails
  let r := getOrCreateSessionId st.store ts r1 r2 pad
  { st with store := r.2, sessionId := some r.1, isNewSessionJustCreated := true }

/-- `SessionManager.clearNewSessionFlag` (defined in the source, but never
invoked by any caller). -/
def clearNewSessionFlag (st : SessionState) : SessionState :=
  { st with isNewSessionJustCreated := false }

/-- What one invocation of `HistoryManager.loadInitialHistory` did before any
response handling: skipped because of the fresh-session flag, scheduled the
500 ms retry because the session id was not ready, or issued the history
request. -/
inductive HistoryAction
  | skippedNewSession
  | retryScheduled
  | requested (sessionId : String)
deriving DecidableEq, Repr

/-- The guard section of `HistoryManager.loadInitialHistory` (lines 22–34):
skip when `isNewSession()` — without touching the flag — retry later when
the id is falsy, otherwise issue `GET /api/chat/history?session_id=...`. -/
def loadInitialHistory (st : SessionState) : SessionState × HistoryAction :=
  if st.isNewSessionJustCreated then (st, HistoryAction.skippedNewSession)
  else
    match st.sessionId with
    | none => (st, HistoryAction.retryScheduled)
    | some sid =>
      if sid = "" then (st, HistoryAction.retryScheduled)
      else
        ({ st with requests := st.requests ++ [Effect.requestHistory sid] },
         HistoryAction.requested sid)

/-! ## Helper lemmas -/

/-- Concatenation of a list of strings, in order. -/
def strConcat : List String → String
  | [] => ""
  | s :: ss => s ++ strConcat ss

theorem str_eq_empty_of_length_zero (s : String) (h : s.length = 0) : s = "" := by
  cases s with
  | mk d =>
    cases d with
    | nil => rfl
    | cons c cs => simp [String.length] at h

theorem str_append_ne_empty_left (a b : String) (h : a ≠ "") : a ++ b ≠ "" := by
  intro hc
  apply h
  have hl := congrArg String.length hc
  rw [String.length_append, String.length_empty] at hl
  exact str_eq_empty_of_length_zero a (by omega)

theorem str_ne_empty_of_le_length (s : String) (h : 33 ≤ s.length) : s ≠ "" := by
  intro hc
  rw [hc] at h
  simp at h

theorem padTo33_length (fuel : Nat) : ∀ (pad : Nat → Char) (s : String),
    33 ≤ s.length + fuel → 33 ≤ (padTo33 fuel pad s).length := by
  induction fuel with
  | zero => intro pad s h; simpa [padTo33] using h
  | succ n ih =>
    intro pad s h
    by_cases hlt : s.length < 33
    · simp only [padTo33, if_pos hlt]
      exact ih pad (s.push (pad n)) (by rw [String.length_push]; omega)
    · simp only [padTo33, if_neg hlt]
      omega

theorem generateSessionId_length (ts : Nat) (r1 r2 : String) (pad : Nat → Char) :
    33 ≤ (generateSessionId ts r1 r2 pad).length :=
  padTo33_length 33 pad _ (by omega)

theorem noPending_append (ms1 ms2 : List Node) (h1 : noPending ms1)
    (h2 : noPending ms2) : noPending (ms1 ++ ms2) := by
  intro n hn
  rcases List.mem_append.mp hn with h | h
  · exact h1 n h
  · exact h2 n h

theorem noPending_msg (r : Role) (c : String) : noPending [Node.msg r c] := by
  intro n hn
  simp at hn
  subst hn
  rfl

theorem map_msgs_id (ms : List Node) (h : noPending ms) (f : Node → Node)
    (hf : ∀ r c, f (Node.msg r c) = Node.msg r c) : ms.map f = ms := by
  induction ms with
  | nil => rfl
  | cons n rest ih =>
    cases n with
    | msg r c =>
      have := ih (fun m hm => h m (List.mem_cons_of_mem _ hm))
      simp [hf, this]
    | pendingEntry i el =>
      exact absurd (h _ (List.mem_cons_self _ _)) (by simp [Node.isPendingEntry])

theorem findSome?_msgs_none {α : Type} (ms : List Node) (h : noPending ms)
    (f : Node → Option α) (hf : ∀ r c, f (Node.msg r c) = none) :
    ms.findSome? f = none := by
  induction ms with
  | nil => rfl
  | cons n rest ih =>
    cases n with
    | msg r c =>
      have := ih (fun m hm => h m (List.mem_cons_of_mem _ hm))
      simp [List.findSome?_cons, hf, this]
    | pendingEntry i el =>
      exact absurd (h _ (List.mem_cons_self _ _)) (by simp [Node.isPendingEntry])

theorem findSome?_append_of_none {α : Type} (l1 l2 : List Node)
    (f : Node → Option α) (h : l1.findSome? f = none) :
    (l1 ++ l2).findSome? f = l2.findSome? f := by
  induction l1 with
  | nil => rfl
  | cons n rest ih =>
    rw [List.findSome?_cons] at h
    cases hf : f n with
    | none =>
      rw [hf] at h
      simp [List.findSome?_cons, hf, ih h]
    | some a => rw [hf] at h; exact absurd h (by simp)

theorem updatePending_eq (ms1 ms2 : List Node) (h1 : noPending ms1)
    (h2 : noPending ms2) (j : Nat) (el : PendingElem) (f : PendingElem → PendingElem) :
    updatePending (ms1 ++ Node.pendingEntry j el :: ms2) j f
      = ms1 ++ Node.pendingEntry j (f el) :: ms2 := by
  unfold updatePending
  rw [List.map_append, List.map_cons]
  rw [map_msgs_id ms1 h1 _ (fun r c => rfl), map_msgs_id ms2 h2 _ (fun r c => rfl)]
  simp

theorem replacePendingWith_eq (ms1 ms2 : List Node) (h1 : noPending ms1)
    (h2 : noPending ms2) (j : Nat) (el : PendingElem) (m : Node) :
    replacePendingWith (ms1 ++ Node.pendingEntry j el :: ms2) j m
      = ms1 ++ m :: ms2 := by
  unfold replacePendingWith
  rw [List.map_append, List.map_cons]
  rw [map_msgs_id ms1 h1 _ (fun r c => rfl), map_msgs_id ms2 h2 _ (fun r c => rfl)]
  simp

theorem pendingTextOf_eq (ms1 ms2 : List Node) (h1 : noPending ms1)
    (j : Nat) (el : PendingElem) :
    pendingTextOf (ms1 ++ Node.pendingEntry j el :: ms2) j = el.text := by
  unfold pendingTextOf
  rw [findSome?_append_of_none ms1 _ _ (findSome?_msgs_none ms1 h1 _ (fun r c => rfl))]
  simp [List.findSome?_cons]

theorem firstPendingId_eq (ms1 ms2 : List Node) (h1 : noPending ms1)
    (j : Nat) (el : PendingElem) :
    firstPendingId (ms1 ++ Node.pendingEntry j el :: ms2) = some j := by
  induction ms1 with
  | nil => rfl
  | cons n rest ih =>
    cases n with
    | msg r c =>
      simpa [firstPendingId] using ih (fun m hm => h1 m (List.mem_cons_of_mem _ hm))
    | pendingEntry i e =>
      exact absurd (h1 _ (List.mem_cons_self _ _)) (by simp [Node.isPendingEntry])

/-- The chat state during live streaming of one response: the container
holds earlier (committed) nodes `ms` followed by the streaming response
element `j`, all manager references point at that element, and the
streaming flag is set. -/
def streamShape (ms : List Node) (j k : Nat) (el : PendingElem)
    (sc : ScrollState) (eff : List Effect) (d : Bool) : ChatState :=
  { dom := ms ++ [Node.pendingEntry j el], nextId := k, scroll := sc,
    effects := eff, isStreaming := true, streamingResponse := some j,
    streamingText := some j, typingIndicator := some j,
    thinkingIndicator := some j, inputDisabled := d }

theorem thinkingVisible_shape (ms : List Node) (j k : Nat) (el : PendingElem)
    (sc : ScrollState) (eff : List Effect) (d : Bool) (hms : noPending ms) :
    thinkingVisible (streamShape ms j k el sc eff d) = !el.thinkingHidden := by
  unfold thinkingVisible streamShape
  simp only
  rw [show ms ++ [Node.pendingEntry j el] = ms ++ Node.pendingEntry j el :: [] from rfl,
      findSome?_append_of_none ms _ _ (findSome?_msgs_none ms hms _ (fun r c => rfl))]
  simp [List.findSome?_cons]

theorem noPending_nil : noPending [] := by
  intro n hn
  simp at hn

theorem smartScroll_shape_ex (ms : List Node) (j k : Nat) (el : PendingElem)
    (sc : ScrollState) (eff : List Effect) (d : Bool) :
    ∃ sc' eff', smartScrollToBottom (streamShape ms j k el sc eff d)
      = streamShape ms j k el sc' eff' d := by
  unfold smartScrollToBottom scrollToBottom
  by_cases hcond : (streamShape ms j k el sc eff d).scroll.scrollHeight -
      (streamShape ms j k el sc eff d).scroll.scrollTop -
      (streamShape ms j k el sc eff d).scroll.clientHeight ≤ 70
  · refine ⟨{ sc with scrollTop := sc.scrollHeight },
      eff ++ [Effect.scrolledToBottom], ?_⟩
    rw [if_pos hcond]
    rfl
  · exact ⟨sc, eff, by rw [if_neg hcond]⟩

theorem chunk_step_started (ms : List Node) (j k : Nat) (el : PendingElem)
    (sc : ScrollState) (eff : List Effect) (d : Bool) (t : String)
    (hms : noPending ms) (hth : el.thinkingHidden = true) (ht : t ≠ "") :
    handleStreamingEvent (streamShape ms j k el sc eff d)
        (EventData.chunk (some t))
      = smartScrollToBottom
          (streamShape ms j k { el with text := el.text ++ t } sc eff d) := by
  have hvis : thinkingVisible (streamShape ms j k el sc eff d) = false := by
    rw [thinkingVisible_shape ms j k el sc eff d hms, hth]; rfl
  have hflip : flipIndicators (streamShape ms j k el sc eff d)
      = streamShape ms j k el sc eff d := by
    unfold flipIndicators
    rw [hvis]
    simp
  have happ : appendStreamingText (streamShape ms j k el sc eff d) t
      = streamShape ms j k { el with text := el.text ++ t } sc eff d := by
    unfold appendStreamingText streamShape
    simp only
    rw [updatePending_eq ms [] hms noPending_nil j el _]
  have hif : (if (streamShape ms j k el sc eff d).isStreaming = true
      then streamShape ms j k el sc eff d
      else startStreaming (streamShape ms j k el sc eff d))
      = streamShape ms j k el sc eff d := rfl
  simp only [handleStreamingEvent]
  rw [if_neg ht]
  unfold handleChunk
  rw [hif]
  simp only [hflip, happ]

theorem chunk_step_fresh (ms : List Node) (j k : Nat) (el : PendingElem)
    (sc : ScrollState) (eff : List Effect) (d : Bool) (t : String)
    (hms : noPending ms) (hth : el.thinkingHidden = false) (ht : t ≠ "") :
    handleStreamingEvent (streamShape ms j k el sc eff d)
        (EventData.chunk (some t))
      = smartScrollToBottom
          (streamShape ms j k
            { el with thinkingHidden := true, textHidden := false,
                      typingHidden := false, text := el.text ++ t } sc eff d) := by
  have hvis : thinkingVisible (streamShape ms j k el sc eff d) = true := by
    rw [thinkingVisible_shape ms j k el sc eff d hms, hth]; rfl
  have hflip : flipIndicators (streamShape ms j k el sc eff d)
      = streamShape ms j k
          { el with thinkingHidden := true, textHidden := false,
                    typingHidden := false } sc eff d := by
    unfold flipIndicators
    rw [hvis]
    simp only [streamShape, if_pos rfl]
    rw [updatePending_eq ms [] hms noPending_nil j el _]
    rw [updatePending_eq ms [] hms noPending_nil j _ _]
    rw [updatePending_eq ms [] hms noPending_nil j _ _]
    simp
  have happ : appendStreamingText
      (streamShape ms j k
        { el with thinkingHidden := true, textHidden := false,
                  typingHidden := false } sc eff d) t
      = streamShape ms j k
          { el with thinkingHidden := true, textHidden := false,
                    typingHidden := false, text := el.text ++ t } sc eff d := by
    unfold appendStreamingText streamShape
    simp only
    rw [updatePending_eq ms [] hms noPending_nil j _ _]
  have hif : (if (streamShape ms j k el sc eff d).isStreaming = true
      then streamShape ms j k el sc eff d
      else startStreaming (streamShape ms j k el sc eff d))
      = streamShape ms j k el sc eff d := rfl
  simp only [handleStreamingEvent]
  rw [if_neg ht]
  unfold handleChunk
  rw [hif]
  simp only [hflip, happ]

theorem fold_chunks (texts : List String) :
    ∀ (ms : List Node) (j k : Nat) (el : PendingElem) (sc : ScrollState)
      (eff : List Effect) (d : Bool), noPending ms → el.thinkingHidden = true →
      (∀ t ∈ texts, t ≠ "") →
      ∃ sc' eff',
        (texts.map fun t => EventData.chunk (some t)).foldl handleStreamingEvent
            (streamShape ms j k el sc eff d)
          = streamShape ms j k { el with text := el.text ++ strConcat texts }
              sc' eff' d := by
  induction texts with
  | nil =>
    intro ms j k el sc eff d hms hth hts
    refine ⟨sc, eff, ?_⟩
    simp [strConcat, String.append_empty]
  | cons t ts ih =>
    intro ms j k el sc eff d hms hth hts
    have ht : t ≠ "" := hts t (List.mem_cons_self _ _)
    have hts' : ∀ u ∈ ts, u ≠ "" := fun u hu => hts u (List.mem_cons_of_mem _ hu)
    rw [List.map_cons, List.foldl_cons,
        chunk_step_started ms j k el sc eff d t hms hth ht]
    obtain ⟨sc1, eff1, hs⟩ :=
      smartScroll_shape_ex ms j k { el with text := el.text ++ t } sc eff d
    rw [hs]
    obtain ⟨sc', eff', hfold⟩ :=
      ih ms j k { el with text := el.text ++ t } sc1 eff1 d hms (by simp [hth]) hts'
    refine ⟨sc', eff', ?_⟩
    rw [hfold]
    simp only [strConcat]
    rw [String.append_assoc]

/-- What `completeStreaming` does when the references point at the pending
element `j` sitting between committed nodes: the streaming flag is cleared,
the typing indicator is display-hidden, and the pending element is replaced
in place by a committed assistant message exactly when the accumulated text
is non-empty — otherwise the element stays in the container. -/
theorem completeStreaming_spec (st : ChatState) (ms1 ms2 : List Node) (j : Nat)
    (p : PendingElem) (hdom : st.dom = ms1 ++ Node.pendingEntry j p :: ms2)
    (h1 : noPending ms1) (h2 : noPending ms2)
    (hsr : st.streamingResponse = some j) (hst : st.streamingText = some j)
    (hty : st.typingIndicator = some j) :
    completeStreaming st =
      { st with
          dom := ms1 ++
            (if p.text = "" then
              Node.pendingEntry j { p with typingDisplayNone := true }
            else Node.msg Role.assistant p.text) :: ms2,
          isStreaming := false,
          streamingResponse := none, streamingText := none,
          typingIndicator := none, thinkingIndicator := none,
          scroll := { st.scroll with scrollTop := st.scroll.scrollHeight },
          effects := st.effects ++ [Effect.scrolledToBottom] } := by
  unfold completeStreaming
  simp only [hty, hsr, hst, hdom]
  rw [updatePending_eq ms1 ms2 h1 h2 j p _]
  rw [pendingTextOf_eq ms1 ms2 h1 j _]
  simp only
  by_cases hp : p.text = ""
  · rw [if_pos hp]
    simp only [hp, ne_eq, not_true_eq_false, if_false]
    unfold scrollToBottom
    simp
  · rw [if_neg hp]
    simp only [ne_eq, hp, not_false_eq_true, if_true]
    rw [replacePendingWith_eq ms1 ms2 h1 h2 j _ _]
    unfold scrollToBottom
    simp

theorem flipIndicators_scroll (st : ChatState) :
    (flipIndicators st).scroll = st.scroll := by
  unfold flipIndicators
  split <;> rfl

theorem appendStreamingText_scroll (st : ChatState) (t : String) :
    (appendStreamingText st t).scroll = st.scroll := by
  unfold appendStreamingText
  cases st.streamingText <;> rfl

theorem smartScroll_dom (st : ChatState) :
    (smartScrollToBottom st).dom = st.dom := by
  unfold smartScrollToBottom scrollToBottom
  split <;> rfl

/-! ## Claims -/

/-- C5 counterexample: with the short string `"abc"` persisted,
`getOrCreateSessionId` returns it as-is — refuting that resolution returns
the persisted id only when it is valid (length ≥ 33): the code checks only
truthiness, never the length. -/
theorem c5_counterexample :
    (getOrCreateSessionId (some ("abc")) 0 ("") ("") fun _ => 'a') = ("abc", some ("abc"))
    ∧ (("abc") : String).length < 33 := by
  exact ⟨rfl, by decide⟩

/-- C5 (amended): repeated `getOrCreateSessionId` calls with no intervening
reset return the identical id and leave the persisted value unchanged; the
persisted id is returned whenever it is present and non-empty (there is no
length-≥-33 validation of a persisted id); only when nothing (or the empty
string) is persisted is a fresh id synthesized, padded to at least 33
characters, persisted and returned. -/
theorem c5_session_id_resolution (store : Option String) (ts : Nat)
    (r1 r2 : String) (pad : Nat → Char) (ts' : Nat) (r1' r2' : String)
    (pad' : Nat → Char) :
    getOrCreateSessionId (getOrCreateSessionId store ts r1 r2 pad).2 ts' r1' r2' pad'
        = getOrCreateSessionId store ts r1 r2 pad
    ∧ ((store = none ∨ store = some ("")) →
        33 ≤ (getOrCreateSessionId store ts r1 r2 pad).1.length)
    ∧ (∀ s : String, store = some s → s ≠ "" →
        getOrCreateSessionId store ts r1 r2 pad = (s, some s)) := by
  have hgen : 33 ≤ (generateSessionId ts r1 r2 pad).length :=
    generateSessionId_length ts r1 r2 pad
  have hgen' : generateSessionId ts r1 r2 pad ≠ "" :=
    str_ne_empty_of_le_length _ hgen
  refine ⟨?_, ?_, ?_⟩
  · cases store with
    | none => simp [getOrCreateSessionId, hgen']
    | some s =>
      by_cases hs : s = ""
      · simp [getOrCreateSessionId, hs, hgen']
      · simp [getOrCreateSessionId, hs]
  · intro hst
    rcases hst with h | h <;> subst h <;> simp [getOrCreateSessionId, hgen]
  · intro s hs hne
    subst hs
    simp [getOrCreateSessionId, hne]

/-- C5 witness: the amended theorem evaluated at an empty store and at a
persisted short id. -/
theorem c5_session_id_resolution_witness :
    getOrCreateSessionId (getOrCreateSessionId none 0 ("") ("") fun _ => 'a').2 1 ("b") ("c")
        (fun _ => 'd')
      = getOrCreateSessionId none 0 ("") ("") (fun _ => 'a')
    ∧ 33 ≤ (getOrCreateSessionId none 0 ("") ("") fun _ => 'a').1.length :=
  ⟨(c5_session_id_resolution none 0 ("") ("") (fun _ => 'a') 1 ("b") ("c") fun _ => 'd').1,
   (c5_session_id_resolution none 0 ("") ("") (fun _ => 'a') 1 ("b") ("c")
      fun _ => 'd').2.1 (Or.inl rfl)⟩

/-- C6 counterexample: after `startNewSession`, the first `loadInitialHistory`
skips — but it does **not** clear the fresh-session flag (the flag is still
set afterwards), and a second `loadInitialHistory` also skips instead of
proceeding normally, refuting that the flag is consumed exactly once by the
first skipped load. -/
theorem c6_counterexample :
    (loadInitialHistory (startNewSession
        { store := none, sessionId := none, isNewSessionJustCreated := false,
          requests := [], warns := [] } false 0 ("") ("") fun _ => 'x')).2
      = HistoryAction.skippedNewSession
    ∧ (loadInitialHistory (startNewSession
        { store := none, sessionId := none, isNewSessionJustCreated := false,
          requests := [], warns := [] } false 0 ("") ("") fun _ => 'x')).1.isNewSessionJustCreated
      = true
    ∧ (loadInitialHistory (loadInitialHistory (startNewSession
        { store := none, sessionId := none, isNewSessionJustCreated := false,
          requests := [], warns := [] } false 0 ("") ("") fun _ => 'x')).1).2
      = HistoryAction.skippedNewSession := by
  refine ⟨rfl, rfl, rfl⟩

/-- C6 (amended): after `startNewSession` the fresh-session flag is set and
`loadInitialHistory` issues no history request; however the skipped load
does not consume the flag — `clearNewSessionFlag` is never invoked — so the
state is returned unchanged and every later `loadInitialHistory` in the
same page load also skips. -/
theorem c6_fresh_session_skip (st st' : SessionState) (nf : Bool) (ts : Nat)
    (r1 r2 : String) (pad : Nat → Char)
    (h : st.isNewSessionJustCreated = true) :
    loadInitialHistory st = (st, HistoryAction.skippedNewSession)
    ∧ (startNewSession st' nf ts r1 r2 pad).isNewSessionJustCreated = true := by
  constructor
  · unfold loadInitialHistory
    rw [if_pos h]
  · rfl

/-- C6 witness: the amended theorem evaluated on a concrete fresh-session
state. -/
theorem c6_fresh_session_skip_witness :
    loadInitialHistory
        { store := some ("s"), sessionId := some ("s"), isNewSessionJustCreated := true,
          requests := [], warns := [] }
      = ({ store := some ("s"), sessionId := some ("s"), isNewSessionJustCreated := true,
           requests := [], warns := [] }, HistoryAction.skippedNewSession)
    ∧ (startNewSession
        { store := none, sessionId := none, isNewSessionJustCreated := false,
          requests := [], warns := [] } true 0 ("") ("") fun _ => 'x').isNewSessionJustCreated
      = true :=
  c6_fresh_session_skip
    { store := some ("s"), sessionId := some ("s"), isNewSessionJustCreated := true,
      requests := [], warns := [] }
    { store := none, sessionId := none, isNewSessionJustCreated := false,
      requests := [], warns := [] } true 0 ("") ("") (fun _ => 'x') rfl

/-- C7: scroll policy asymmetry.  While streaming, a `chunk` appended when
the viewer is more than the 70-pixel threshold away from the bottom leaves
`scrollTop` unchanged; appending a user message — and likewise an error
message — always sets `scrollTop` to the bottom, whatever the prior
offset. -/
theorem c7_scroll_policy_asymmetry (st st2 st3 : ChatState) (t c1 c2 : String)
    (hstr : st.isStreaming = true)
    (hfar : 70 < st.scroll.scrollHeight - st.scroll.scrollTop - st.scroll.clientHeight) :
    (handleStreamingEvent st (EventData.chunk (some t))).scroll.scrollTop
        = st.scroll.scrollTop
    ∧ (addUserMessage st2 c1).scroll.scrollTop = st2.scroll.scrollHeight
    ∧ (addErrorMessage st3 c2).scroll.scrollTop = st3.scroll.scrollHeight := by
  refine ⟨?_, rfl, rfl⟩
  by_cases ht : t = ""
  · simp [handleStreamingEvent, ht]
  · have hif : (if st.isStreaming = true then st else startStreaming st) = st := by
      rw [hstr]
      simp
    have hsc : (appendStreamingText (flipIndicators st) t).scroll = st.scroll := by
      rw [appendStreamingText_scroll, flipIndicators_scroll]
    simp only [handleStreamingEvent]
    rw [if_neg ht]
    unfold handleChunk
    rw [hif]
    show (smartScrollToBottom (appendStreamingText (flipIndicators st) t)).scroll.scrollTop
      = st.scroll.scrollTop
    unfold smartScrollToBottom
    rw [hsc, if_neg (by omega)]
    rw [hsc]

/-- C7 witness: the theorem evaluated on a concrete state scrolled 830
pixels away from the bottom. -/
theorem c7_scroll_policy_asymmetry_witness :
    (handleStreamingEvent
        (streamShape [] 0 1 freshPending ⟨0, 1000, 100⟩ [] false)
        (EventData.chunk (some ("x")))).scroll.scrollTop
      = (streamShape [] 0 1 freshPending ⟨0, 1000, 100⟩ [] false).scroll.scrollTop
    ∧ (addUserMessage (initialChatState ⟨0, 500, 100⟩) "hi").scroll.scrollTop
      = (initialChatState ⟨0, 500, 100⟩).scroll.scrollHeight
    ∧ (addErrorMessage (initialChatState ⟨0, 500, 100⟩) "e").scroll.scrollTop
      = (initialChatState ⟨0, 500, 100⟩).scroll.scrollHeight :=
  c7_scroll_policy_asymmetry
    (streamShape [] 0 1 freshPending ⟨0, 1000, 100⟩ [] false)
    (initialChatState ⟨0, 500, 100⟩) (initialChatState ⟨0, 500, 100⟩)
    ("x") ("hi") ("e") rfl (by decide)

/-- C8: `resetChatSession` always removes the persisted session id locally —
the removal precedes the best-effort notification and is neither prevented
nor undone when the notification fetch fails — and the clear-session
request is always attempted. -/
theorem c8_reset_always_clears_locally (st : SessionState) (notifyFails : Bool) :
    (resetChatSession st notifyFails).store = none
    ∧ (resetChatSession st notifyFails).requests
        = st.requests ++ [Effect.requestClearSession] := by
  cases notifyFails <;> exact ⟨rfl, rfl⟩

/-- C9: when the trimmed input is empty, `handleFormSubmit` returns at the
guard: the state — transcript, input-disabled flag, scroll state and the
effect log (so no network request) — is completely unchanged. -/
theorem c9_empty_input_rejected (jsonParse : String → Option EventData)
    (input : String) (sessionId : Option String) (httpOk : Bool)
    (frags : List (List Char)) (readOk : Bool) (failMsg httpErrMsg : String)
    (st : ChatState) (h : jsTrim input = "") :
    handleFormSubmit jsonParse input sessionId httpOk frags readOk failMsg
        httpErrMsg st = st := by
  unfold handleFormSubmit handleFormSubmitEvents
  rw [if_pos h]

/-- C9 witness: the theorem evaluated on a whitespace-only input. -/
theorem c9_empty_input_rejected_witness :
    jsTrim ("  \t ") = ""
    ∧ handleFormSubmit (fun _ => none) ("  \t ") (some ("sid")) true [] true ("") ("")
        (initialChatState ⟨0, 0, 0⟩) = initialChatState ⟨0, 0, 0⟩ :=
  ⟨by decide,
   c9_empty_input_rejected (fun _ => none) ("  \t ") (some ("sid")) true [] true ("") ("")
     (initialChatState ⟨0, 0, 0⟩) (by decide)⟩

/-- C10: a `chunk` event whose `text` field is absent or empty (JS falsy) is
a complete no-op: the state — transcript, streaming flag, references,
scroll state and effect log — is returned unchanged. -/
theorem c10_falsy_chunk_noop (st : ChatState) (t : Option String)
    (h : t = none ∨ t = some ("")) :
    handleStreamingEvent st (EventData.chunk t) = st := by
  rcases h with h | h <;> subst h
  · rfl
  · simp [handleStreamingEvent]

/-- C10 witness: the theorem evaluated on a mid-stream state and the empty
chunk text. -/
theorem c10_falsy_chunk_noop_witness :
    handleStreamingEvent (streamShape [] 0 1 freshPending ⟨0, 0, 0⟩ [] true)
        (EventData.chunk (some ("")))
      = streamShape [] 0 1 freshPending ⟨0, 0, 0⟩ [] true :=
  c10_falsy_chunk_noop (streamShape [] 0 1 freshPending ⟨0, 0, 0⟩ [] true)
    (some ("")) (Or.inr rfl)

theorem startStreaming_shape (st : ChatState) (hnp : noPending st.dom) :
    startStreaming st
      = streamShape st.dom st.nextId (st.nextId + 1) freshPending
          { scrollTop := st.scroll.scrollHeight,
            scrollHeight := st.scroll.scrollHeight,
            clientHeight := st.scroll.clientHeight }
          (st.effects ++ [Effect.scrolledToBottom]) st.inputDisabled := by
  unfold startStreaming scrollToBottom streamShape
  simp only
  rw [firstPendingId_eq st.dom [] hnp st.nextId freshPending]

/-- C1 counterexample: start streaming, take one chunk, process `complete`
(which commits the assistant message), then feed one more `chunk` to the
same manager instance — the transcript **is** mutated: a fresh pending
entry appears carrying the new text. -/
theorem c1_counterexample :
    (handleStreamingEvent
        (handleStreamingEvent
          (handleStreamingEvent (startStreaming (initialChatState ⟨0, 0, 0⟩))
            (EventData.chunk (some ("hi"))))
          EventData.complete)
        (EventData.chunk (some ("x")))).dom
      ≠ (handleStreamingEvent
          (handleStreamingEvent (startStreaming (initialChatState ⟨0, 0, 0⟩))
            (EventData.chunk (some ("hi"))))
          EventData.complete).dom := by
  decide

/-- C1 (amended): after a terminal event has been processed (streaming flag
cleared, references nulled) and the settled response removed or promoted,
a further `chunk` event with non-empty text is **not** ignored: because the
streaming flag is down, `startStreaming` runs again, a fresh pending entry
is appended to the transcript and the chunk text is written into it. -/
theorem c1_chunk_after_terminal_restarts (st : ChatState) (t : String)
    (hstr : st.isStreaming = false) (hnp : noPending st.dom) (ht : t ≠ "") :
    (handleStreamingEvent st (EventData.chunk (some t))).dom
      = st.dom ++ [Node.pendingEntry st.nextId
          { thinkingHidden := true, textHidden := false, typingHidden := false,
            typingDisplayNone := false, text := t }] := by
  have hif : (if st.isStreaming = true then st else startStreaming st)
      = startStreaming st := by
    rw [hstr]
    simp
  have hif2 : (if (startStreaming st).isStreaming = true then startStreaming st
      else startStreaming (startStreaming st)) = startStreaming st :=
    if_pos rfl
  have h1 : handleStreamingEvent st (EventData.chunk (some t)) = handleChunk st t := by
    simp only [handleStreamingEvent]
    rw [if_neg ht]
  have h2 : handleChunk st t = handleChunk (startStreaming st) t := by
    unfold handleChunk
    rw [hif, hif2]
  have h3 : handleChunk (streamShape st.dom st.nextId (st.nextId + 1) freshPending
      { scrollTop := st.scroll.scrollHeight, scrollHeight := st.scroll.scrollHeight,
        clientHeight := st.scroll.clientHeight }
      (st.effects ++ [Effect.scrolledToBottom]) st.inputDisabled) t
      = handleStreamingEvent (streamShape st.dom st.nextId (st.nextId + 1) freshPending
          { scrollTop := st.scroll.scrollHeight, scrollHeight := st.scroll.scrollHeight,
            clientHeight := st.scroll.clientHeight }
          (st.effects ++ [Effect.scrolledToBottom]) st.inputDisabled)
          (EventData.chunk (some t)) := by
    simp only [handleStreamingEvent]
    rw [if_neg ht]
  rw [h1, h2, startStreaming_shape st hnp, h3,
      chunk_step_fresh st.dom st.nextId (st.nextId + 1) freshPending _ _
        st.inputDisabled t hnp rfl ht,
      smartScroll_dom]
  show (streamShape _ _ _ _ _ _ _).dom = _
  unfold streamShape
  simp [freshPending, String.empty_append]

/-- C1 witness: the amended theorem evaluated on a settled, clean state. -/
theorem c1_chunk_after_terminal_restarts_witness :
    (handleStreamingEvent
        (initialChatState ⟨0, 0, 0⟩) (EventData.chunk (some ("x")))).dom
      = (initialChatState ⟨0, 0, 0⟩).dom ++ [Node.pendingEntry 0
          { thinkingHidden := true, textHidden := false, typingHidden := false,
            typingDisplayNone := false, text := "x" }] :=
  c1_chunk_after_terminal_restarts (initialChatState ⟨0, 0, 0⟩) ("x") rfl
    noPending_nil (by decide)

/-- C4 counterexample: a stream that settles with no accumulated text
(`startStreaming` then `complete` with no chunks) leaves the pending
streaming element **in** the transcript — only its typing indicator is
display-hidden — refuting that the pending entry always leaves the
transcript on settle. -/
theorem c4_counterexample :
    (handleStreamingEvent (startStreaming (initialChatState ⟨0, 0, 0⟩))
        EventData.complete).dom
      = [Node.pendingEntry 0
          { thinkingHidden := false, textHidden := true, typingHidden := true,
            typingDisplayNone := true, text := "" }]
    ∧ ((handleStreamingEvent (startStreaming (initialChatState ⟨0, 0, 0⟩))
        EventData.complete).dom.any Node.isPendingEntry) = true := by
  decide

/-- C4 (amended): when the state machine settles, the pending entry is
replaced in place by a committed assistant message exactly when the
accumulated text is non-empty; when the accumulated text is empty the
pending element is not removed — it stays in the transcript (with its
typing indicator display-hidden), so it is promoted or left behind, never
discarded. -/
theorem c4_settle_promotes_or_leaves (st : ChatState) (ms1 ms2 : List Node)
    (j : Nat) (p : PendingElem)
    (hdom : st.dom = ms1 ++ Node.pendingEntry j p :: ms2)
    (h1 : noPending ms1) (h2 : noPending ms2)
    (hsr : st.streamingResponse = some j) (hst : st.streamingText = some j)
    (hty : st.typingIndicator = some j) :
    (completeStreaming st).dom
      = ms1 ++
          (if p.text = "" then
            Node.pendingEntry j { p with typingDisplayNone := true }
          else Node.msg Role.assistant p.text) :: ms2 := by
  rw [completeStreaming_spec st ms1 ms2 j p hdom h1 h2 hsr hst hty]

/-- C4 witness: the amended theorem evaluated on a streaming state with
accumulated text `"hi"`, which is promoted in place. -/
theorem c4_settle_promotes_or_leaves_witness :
    (completeStreaming (streamShape [] 0 1
        { thinkingHidden := true, textHidden := false, typingHidden := false,
          typingDisplayNone := false, text := "hi" } ⟨0, 0, 0⟩ [] false)).dom
      = [Node.msg Role.assistant ("hi")] := by
  rw [c4_settle_promotes_or_leaves (streamShape [] 0 1
        { thinkingHidden := true, textHidden := false, typingHidden := false,
          typingDisplayNone := false, text := "hi" } ⟨0, 0, 0⟩ [] false)
      [] [] 0
      { thinkingHidden := true, textHidden := false, typingHidden := false,
        typingDisplayNone := false, text := "hi" }
      rfl noPending_nil noPending_nil rfl rfl rfl]
  decide

theorem addErrorMessage_shape (ms : List Node) (j k : Nat) (el : PendingElem)
    (sc : ScrollState) (eff : List Effect) (d : Bool) (c : String) :
    addErrorMessage (streamShape ms j k el sc eff d) c
      = { dom := ms ++ Node.pendingEntry j el :: [Node.msg Role.errorRole c],
          nextId := k,
          scroll := { scrollTop := sc.scrollHeight,
                      scrollHeight := sc.scrollHeight,
                      clientHeight := sc.clientHeight },
          effects := eff ++ [Effect.scrolledToBottom],
          isStreaming := true, streamingResponse := some j,
          streamingText := some j, typingIndicator := some j,
          thinkingIndicator := some j, inputDisabled := d } := by
  simp [addErrorMessage, scrollToBottom, streamShape]

theorem error_event_on_shape (ms : List Node) (j k : Nat) (el : PendingElem)
    (sc : ScrollState) (eff : List Effect) (d : Bool) (c : String)
    (hms : noPending ms) (hel : el.text ≠ "") :
    handleStreamingEvent (streamShape ms j k el sc eff d) (EventData.errorEvent c)
      = { dom := ms ++ Node.msg Role.assistant el.text ::
            [Node.msg Role.errorRole ("エラー: " ++ c)],
          nextId := k,
          scroll := { scrollTop := sc.scrollHeight,
                      scrollHeight := sc.scrollHeight,
                      clientHeight := sc.clientHeight },
          effects := (eff ++ [Effect.scrolledToBottom]) ++ [Effect.scrolledToBottom],
          isStreaming := false, streamingResponse := none, streamingText := none,
          typingIndicator := none, thinkingIndicator := none,
          inputDisabled := d } := by
  show completeStreaming
      (addErrorMessage (streamShape ms j k el sc eff d) ("エラー: " ++ c)) = _
  rw [addErrorMessage_shape ms j k el sc eff d ("エラー: " ++ c)]
  rw [completeStreaming_spec
      { dom := ms ++ Node.pendingEntry j el ::
          [Node.msg Role.errorRole ("エラー: " ++ c)],
        nextId := k,
        scroll := { scrollTop := sc.scrollHeight,
                    scrollHeight := sc.scrollHeight,
                    clientHeight := sc.clientHeight },
        effects := eff ++ [Effect.scrolledToBottom],
        isStreaming := true, streamingResponse := some j,
        streamingText := some j, typingIndicator := some j,
        thinkingIndicator := some j, inputDisabled := d }
      ms [Node.msg Role.errorRole ("エラー: " ++ c)] j el rfl hms
      (noPending_msg _ _) rfl rfl rfl]
  rw [if_neg hel]

theorem transport_finally_on_shape (ms : List Node) (j k : Nat)
    (el : PendingElem) (sc : ScrollState) (eff : List Effect) (d : Bool)
    (c : String) (hms : noPending ms) (hel : el.text ≠ "") :
    completeStreaming
        (setInputDisabled (addErrorMessage (streamShape ms j k el sc eff d) c)
          false)
      = { dom := ms ++ Node.msg Role.assistant el.text ::
            [Node.msg Role.errorRole c],
          nextId := k,
          scroll := { scrollTop := sc.scrollHeight,
                      scrollHeight := sc.scrollHeight,
                      clientHeight := sc.clientHeight },
          effects := (eff ++ [Effect.scrolledToBottom]) ++ [Effect.scrolledToBottom],
          isStreaming := false, streamingResponse := none, streamingText := none,
          typingIndicator := none, thinkingIndicator := none,
          inputDisabled := false } := by
  rw [addErrorMessage_shape ms j k el sc eff d c]
  show completeStreaming
      { dom := ms ++ Node.pendingEntry j el :: [Node.msg Role.errorRole c],
        nextId := k,
        scroll := { scrollTop := sc.scrollHeight,
                    scrollHeight := sc.scrollHeight,
                    clientHeight := sc.clientHeight },
        effects := eff ++ [Effect.scrolledToBottom],
        isStreaming := true, streamingResponse := some j,
        streamingText := some j, typingIndicator := some j,
        thinkingIndicator := some j, inputDisabled := false } = _
  rw [completeStreaming_spec
      { dom := ms ++ Node.pendingEntry j el :: [Node.msg Role.errorRole c],
        nextId := k,
        scroll := { scrollTop := sc.scrollHeight,
                    scrollHeight := sc.scrollHeight,
                    clientHeight := sc.clientHeight },
        effects := eff ++ [Effect.scrolledToBottom],
        isStreaming := true, streamingResponse := some j,
        streamingText := some j, typingIndicator := some j,
        thinkingIndicator := some j, inputDisabled := false }
      ms [Node.msg Role.errorRole c] j el rfl hms (noPending_msg _ _)
      rfl rfl rfl]
  rw [if_neg hel]

/-- C2 counterexample: a send that receives the chunk `"hi"` and then an
in-protocol `error` event ends with the transcript `[user, assistant,
error]` — the partial text **is** committed as an assistant message,
refuting that no assistant message is committed on failure. -/
theorem c2_counterexample :
    (handleFormSubmitEvents ("hello") none true
        [EventData.chunk (some ("hi")), EventData.errorEvent ("boom")] true
        ("readfail") ("httpfail") (initialChatState ⟨0, 0, 0⟩)).dom
      = [Node.msg Role.user ("hello"), Node.msg Role.assistant ("hi"),
         Node.msg Role.errorRole ("エラー: boom")] := by
  decide

theorem full_fold (t0 : String) (ts : List String) (ht0 : t0 ≠ "")
    (hts : ∀ t ∈ ts, t ≠ "") (ms : List Node) (j k : Nat) (sc : ScrollState)
    (eff : List Effect) (d : Bool) (hms : noPending ms) :
    ∃ sc' eff',
      ((t0 :: ts).map fun t => EventData.chunk (some t)).foldl
          handleStreamingEvent (streamShape ms j k freshPending sc eff d)
        = streamShape ms j k
            { thinkingHidden := true, textHidden := false, typingHidden := false,
              typingDisplayNone := false, text := t0 ++ strConcat ts }
            sc' eff' d := by
  rw [List.map_cons, List.foldl_cons,
      chunk_step_fresh ms j k freshPending sc eff d t0 hms rfl ht0]
  obtain ⟨sc1, eff1, hs⟩ := smartScroll_shape_ex ms j k
    { freshPending with thinkingHidden := true, textHidden := false,
                        typingHidden := false, text := freshPending.text ++ t0 } sc eff d
  rw [hs]
  obtain ⟨sc', eff', hf⟩ := fold_chunks ts ms j k
    { freshPending with thinkingHidden := true, textHidden := false,
                        typingHidden := false, text := freshPending.text ++ t0 }
    sc1 eff1 d hms rfl hts
  refine ⟨sc', eff', ?_⟩
  rw [hf]
  simp [freshPending, String.empty_append]

/-- C2 (amended): a send whose trimmed input is non-empty, which receives
one or more chunks carrying non-empty text and then fails — by an
in-protocol `error` event or by a transport failure — ends with the user
message, a committed **assistant** message holding the partial accumulated
text (the pending entry is promoted, not discarded), and exactly one
error-role message; the input control is re-enabled. -/
theorem c2_failure_commits_partial_and_error (st0 : ChatState) (input : String)
    (sid : Option String) (t0 : String) (ts : List String) (em fm hm : String)
    (hin : jsTrim input ≠ "") (ht0 : t0 ≠ "") (hts : ∀ t ∈ ts, t ≠ "")
    (hnp : noPending st0.dom) :
    ((handleFormSubmitEvents input sid true
        (((t0 :: ts).map fun t => EventData.chunk (some t)) ++
          [EventData.errorEvent em]) true fm hm st0).dom
      = st0.dom ++ [Node.msg Role.user (jsTrim input),
          Node.msg Role.assistant (strConcat (t0 :: ts)),
          Node.msg Role.errorRole ("エラー: " ++ em)]
    ∧ (handleFormSubmitEvents input sid true
        (((t0 :: ts).map fun t => EventData.chunk (some t)) ++
          [EventData.errorEvent em]) true fm hm st0).inputDisabled = false)
    ∧ ((handleFormSubmitEvents input sid true
        ((t0 :: ts).map fun t => EventData.chunk (some t)) false fm hm st0).dom
      = st0.dom ++ [Node.msg Role.user (jsTrim input),
          Node.msg Role.assistant (strConcat (t0 :: ts)),
          Node.msg Role.errorRole ("メッセージ送信エラー: " ++ fm)]
    ∧ (handleFormSubmitEvents input sid true
        ((t0 :: ts).map fun t => EventData.chunk (some t)) false fm hm st0).inputDisabled
      = false) := by
  have htt : ((true : Bool) = true) := rfl
  have hff : ¬((false : Bool) = true) := Bool.false_ne_true
  have hnp1 : noPending (st0.dom ++ [Node.msg Role.user (jsTrim input)]) :=
    noPending_append _ _ hnp (noPending_msg _ _)
  have hel2 : (t0 ++ strConcat ts) ≠ "" := str_append_ne_empty_left t0 _ ht0
  have hR3 : { addUserMessage (setInputDisabled st0 true) (jsTrim input) with
      effects := (addUserMessage (setInputDisabled st0 true) (jsTrim input)).effects ++
        [Effect.requestSend (jsTrim input) sid] }
      = ({ dom := st0.dom ++ [Node.msg Role.user (jsTrim input)],
           nextId := st0.nextId,
           scroll := { scrollTop := st0.scroll.scrollHeight,
                       scrollHeight := st0.scroll.scrollHeight,
                       clientHeight := st0.scroll.clientHeight },
           effects := (st0.effects ++ [Effect.scrolledToBottom]) ++
             [Effect.requestSend (jsTrim input) sid],
           isStreaming := st0.isStreaming,
           streamingResponse := st0.streamingResponse,
           streamingText := st0.streamingText,
           typingIndicator := st0.typingIndicator,
           thinkingIndicator := st0.thinkingIndicator,
           inputDisabled := true } : ChatState) := by
    simp [addUserMessage, setInputDisabled, scrollToBottom]
  obtain ⟨sc1, eff1, hfold⟩ := full_fold t0 ts ht0 hts
    (st0.dom ++ [Node.msg Role.user (jsTrim input)]) st0.nextId (st0.nextId + 1)
    { scrollTop := st0.scroll.scrollHeight,
      scrollHeight := st0.scroll.scrollHeight,
      clientHeight := st0.scroll.clientHeight }
    (((st0.effects ++ [Effect.scrolledToBottom]) ++
        [Effect.requestSend (jsTrim input) sid]) ++ [Effect.scrolledToBottom])
    true hnp1
  have hrun1 : handleFormSubmitEvents input sid true
      (((t0 :: ts).map fun t => EventData.chunk (some t)) ++
        [EventData.errorEvent em]) true fm hm st0
      = { dom := (st0.dom ++ [Node.msg Role.user (jsTrim input)]) ++
            Node.msg Role.assistant (t0 ++ strConcat ts) ::
            [Node.msg Role.errorRole ("エラー: " ++ em)],
          nextId := st0.nextId + 1,
          scroll := { scrollTop := sc1.scrollHeight,
                      scrollHeight := sc1.scrollHeight,
                      clientHeight := sc1.clientHeight },
          effects := (eff1 ++ [Effect.scrolledToBottom]) ++ [Effect.scrolledToBottom],
          isStreaming := false, streamingResponse := none, streamingText := none,
          typingIndicator := none, thinkingIndicator := none,
          inputDisabled := false } := by
    simp only [handleFormSubmitEvents]
    rw [if_neg hin, hR3]
    rw [startStreaming_shape _ hnp1]
    dsimp only
    rw [List.foldl_append, hfold]
    simp only [List.foldl_cons, List.foldl_nil]
    rw [error_event_on_shape (st0.dom ++ [Node.msg Role.user (jsTrim input)])
        st0.nextId (st0.nextId + 1)
        { thinkingHidden := true, textHidden := false, typingHidden := false,
          typingDisplayNone := false, text := t0 ++ strConcat ts }
        sc1 eff1 true em hnp1 hel2]
    simp [setInputDisabled]
  have hpos : (setInputDisabled (addErrorMessage
      (streamShape (st0.dom ++ [Node.msg Role.user (jsTrim input)])
        st0.nextId (st0.nextId + 1)
        { thinkingHidden := true, textHidden := false, typingHidden := false,
          typingDisplayNone := false, text := t0 ++ strConcat ts }
        sc1 eff1 true) ("メッセージ送信エラー: " ++ fm)) false).isStreaming
      = true := rfl
  have hrun2 : handleFormSubmitEvents input sid true
      ((t0 :: ts).map fun t => EventData.chunk (some t)) false fm hm st0
      = { dom := (st0.dom ++ [Node.msg Role.user (jsTrim input)]) ++
            Node.msg Role.assistant (t0 ++ strConcat ts) ::
            [Node.msg Role.errorRole ("メッセージ送信エラー: " ++ fm)],
          nextId := st0.nextId + 1,
          scroll := { scrollTop := sc1.scrollHeight,
                      scrollHeight := sc1.scrollHeight,
                      clientHeight := sc1.clientHeight },
          effects := (eff1 ++ [Effect.scrolledToBottom]) ++ [Effect.scrolledToBottom],
          isStreaming := false, streamingResponse := none, streamingText := none,
          typingIndicator := none, thinkingIndicator := none,
          inputDisabled := false } := by
    simp only [handleFormSubmitEvents]
    rw [if_neg hin, hR3]
    rw [startStreaming_shape _ hnp1]
    dsimp only
    rw [hfold]
    rw [if_neg hff]
    simp only [if_true]
    rw [if_pos hpos]
    rw [transport_finally_on_shape (st0.dom ++ [Node.msg Role.user (jsTrim input)])
        st0.nextId (st0.nextId + 1)
        { thinkingHidden := true, textHidden := false, typingHidden := false,
          typingDisplayNone := false, text := t0 ++ strConcat ts }
        sc1 eff1 true ("メッセージ送信エラー: " ++ fm) hnp1 hel2]
  refine ⟨⟨?_, ?_⟩, ?_, ?_⟩
  · rw [hrun1]
    simp [strConcat]
  · rw [hrun1]
  · rw [hrun2]
    simp [strConcat]
  · rw [hrun2]

/-- C2 witness: the amended theorem evaluated on the fresh page state, the
input `"hello"`, one chunk `"hi"` and an in-protocol error `"boom"`. -/
theorem c2_failure_commits_partial_and_error_witness :
    (handleFormSubmitEvents ("hello") none true
        (([("hi" : String)].map fun t => EventData.chunk (some t)) ++
          [EventData.errorEvent ("boom")]) true ("rf") ("hf")
        (initialChatState ⟨0, 0, 0⟩)).dom
      = (initialChatState ⟨0, 0, 0⟩).dom ++
          [Node.msg Role.user (jsTrim ("hello")),
           Node.msg Role.assistant (strConcat ["hi"]),
           Node.msg Role.errorRole ("エラー: " ++ "boom")] :=
  (c2_failure_commits_partial_and_error (initialChatState ⟨0, 0, 0⟩) ("hello") none
    ("hi") [] ("boom") ("rf") ("hf") (by decide) (by decide) (by simp)
    noPending_nil).1.1

end Healthmate
